import Mathlib

/-!
Verification of `anymail/backends/base.py` (django-anymail): the generic
payload-construction and send-orchestration pipeline shared by all ESP
backends. Python classes and methods are shallowly embedded as Lean
definitions; fallible Python code (raising exceptions) is embedded with
`Except`; side-effecting calls (open/close, per-message processing stages)
are recorded in explicit event/stage traces.
-/

namespace Anymail

/-- Opaque stand-in for the ESP-specific payload object built by
`build_message_payload` (a `BasePayload` instance). Only its identity
matters to the orchestration code verified here. -/
structure Payload where
  data : String
deriving DecidableEq

/-- Stand-in for a `requests.Response`: HTTP status code plus raw body. -/
structure Response where
  status_code : Nat
  body : String
deriving DecidableEq

/-- Kinds of errors in the `AnymailError` family (from `anymail.exceptions`,
whose class hierarchy is described by the spec: every operational error kind
derives from the one common `AnymailError` base). Constructors carry the
diagnostic context the Python constructors receive where a claim depends on
it (`AnymailRequestsAPIError` is built with `payload=` and `response=`). -/
inductive AKind
  | requestsAPIError (payload : Payload) (response : Response)
  | serializationError (msg : String)
  | unsupportedFeature (msg : String)
  | recipientsRefused
deriving DecidableEq

/-- A Python exception as seen by the send loop: either a member of the
`AnymailError` family, or an error outside that family (`RuntimeError` from
`AnymailRequestsBackend._send`, `NotImplementedError` from a missing hook). -/
inductive Err
  | anymail (k : AKind)
  | runtime (msg : String)
  | notImplementedError (msg : String)
deriving DecidableEq

/-- Membership test for the `except AnymailError:` clause of
`send_messages`: exactly the `AnymailError` family matches. -/
def Err.isAnymailError : Err → Bool
  | .anymail _ => true
  | .runtime _ => false
  | .notImplementedError _ => false

/-- Observable calls made by `send_messages`: the single `self.open()` call,
the per-message body of the `for message in email_messages` loop (index in
input order), and the `self.close()` call in the `finally` block. -/
inductive Event
  | openCall
  | processMsg (i : Nat)
  | closeCall
deriving DecidableEq

/-- Inner loop of `AnymailBaseBackend.send_messages` (base.py lines 82-92),
abstracted over the outcome of each `self._send(message)` call: `Except.ok
sent` when `_send` returns, `Except.error e` when it raises `e`. Returns the
loop's own outcome (final `num_sent`, or the propagating exception) together
with the trace of messages actually processed. An `AnymailError` is caught;
with `fail_silently` it becomes `sent = False` and the loop continues,
without it the error is re-raised; any other error propagates immediately. -/
def sendLoop (fail_silently : Bool) :
    List (Except Err Bool) → Nat → Nat → Except Err Nat × List Event
  | [], _, num_sent => (.ok num_sent, [])
  | r :: rs, i, num_sent =>
    match r with
    | .ok sent =>
      let rest := sendLoop fail_silently rs (i + 1)
        (if sent then num_sent + 1 else num_sent)
      (rest.1, .processMsg i :: rest.2)
    | .error e =>
      if e.isAnymailError then
        if fail_silently then
          let rest := sendLoop fail_silently rs (i + 1) num_sent
          (rest.1, .processMsg i :: rest.2)
        else (.error e, [.processMsg i])
      else (.error e, [.processMsg i])

/-- `AnymailBaseBackend.send_messages` (base.py lines 67-97), abstracted over
the outcome of `self.open()` (`Except.ok created_session`, or an exception)
and the per-message `_send` outcomes. Mirrors the source: `num_sent = 0`;
empty input returns immediately; otherwise `open()` once, the loop inside
`try`, and `close()` in `finally` exactly when `created_session` — the
`finally` runs on the exceptional exit path too, which is why `closeCall` is
appended whether the loop's outcome is `ok` or `error`. -/
def send_messages (fail_silently : Bool) (openOutcome : Except Err Bool)
    (msends : List (Except Err Bool)) : Except Err Nat × List Event :=
  if msends.isEmpty then (.ok 0, [])
  else
    match openOutcome with
    | .error e => (.error e, [.openCall])
    | .ok created_session =>
      let res := sendLoop fail_silently msends 0 0
      (res.1, .openCall :: (res.2 ++ if created_session then [.closeCall] else []))

/-- Normalized delivery status returned by `validate_response`
(one of "sent", "queued", "refused", "error" or "multi"). -/
inductive DeliveryStatus
  | sent
  | queued
  | refused
  | error
  | multi
deriving DecidableEq

/-- The two message attributes `_send` mutates: `message.anymail_status` and
the `<esp_name>_response` attribute (the parsed ESP response). -/
structure MsgState where
  anymail_status : Option DeliveryStatus
  esp_response : Option String
deriving DecidableEq

/-- State `_send` installs first: `message.anymail_status = None` and
`setattr(message, esp_response_attr, None)` ("until we have a response"). -/
def initialState : MsgState := ⟨none, none⟩

/-- The recipient-relevant part of a Django `EmailMessage`. -/
structure SendMessage where
  «to» : List String
  cc : List String
  bcc : List String
deriving DecidableEq

/-- Django's `EmailMessage.recipients()`: to + cc + bcc. -/
def SendMessage.recipients (m : SendMessage) : List String :=
  m.«to» ++ m.cc ++ m.bcc

/-- Stages of the per-message pipeline inside `AnymailBaseBackend._send`,
recorded when the corresponding hook is invoked (whether or not it raises).
`postToEsp` marks the HTTP transmission. -/
inductive Stage
  | buildPayload
  | postToEsp
  | deserializeResp
  | validateResp
deriving DecidableEq

/-- The ESP-specific hooks a concrete backend supplies, abstracted as
functions: `build_message_payload`, the underlying `self.session.request`
transmission, `deserialize_response`, and `validate_response`. -/
structure EspBehavior where
  build : SendMessage → Except Err Payload
  http : Payload → Response
  deserialize : Response → Except Err String
  validate : String → Response → Payload → Except Err DeliveryStatus

/-- `AnymailRequestsBackend.post_to_esp` (base.py lines 228-241): perform the
HTTP request, then raise `AnymailRequestsAPIError(email_message=message,
payload=payload, response=response)` when `response.status_code != 200`,
otherwise return the response. -/
def post_to_esp (http : Payload → Response) (payload : Payload) :
    Except Err Response :=
  let response := http payload
  if response.status_code ≠ 200 then
    .error (.anymail (.requestsAPIError payload response))
  else .ok response

/-- `AnymailBaseBackend._send` (base.py lines 99-122), with the transmission
step instantiated to the requests backend's `post_to_esp`. Resets the
message's status attributes, returns `False` for a message with no
recipients, and otherwise runs build → post → deserialize → validate,
recording each stage as it is entered and stopping at the first raised
error. On success the parsed response and the normalized status are attached
to the message and `True` is returned. The `st` argument is the message's
incoming attribute state (overwritten unconditionally). -/
def base_send (esp : EspBehavior) (m : SendMessage) (_st : MsgState) :
    Except Err Bool × MsgState × List Stage :=
  let st0 := initialState
  if m.recipients.isEmpty then (.ok false, st0, [])
  else
    match esp.build m with
    | .error e => (.error e, st0, [.buildPayload])
    | .ok payload =>
      match post_to_esp esp.http payload with
      | .error e => (.error e, st0, [.buildPayload, .postToEsp])
      | .ok response =>
        match esp.deserialize response with
        | .error e => (.error e, st0, [.buildPayload, .postToEsp, .deserializeResp])
        | .ok parsed =>
          let st1 : MsgState := ⟨none, some parsed⟩
          match esp.validate parsed response payload with
          | .error e =>
            (.error e, st1, [.buildPayload, .postToEsp, .deserializeResp, .validateResp])
          | .ok status =>
            (.ok true, ⟨some status, some parsed⟩,
              [.buildPayload, .postToEsp, .deserializeResp, .validateResp])

/-- Message of the `RuntimeError` raised by `AnymailRequestsBackend._send`
when no session is open. -/
def noSessionMsg (class_name : String) : String :=
  "Session has not been opened in " ++ class_name ++ "._send. " ++
  "(This is either an implementation error in " ++ class_name ++ ", " ++
  "or you are incorrectly calling _send directly.)"

/-- Abstract `requests.Session`: its mutable header mapping. -/
structure Session where
  headers : String → Option String

/-- `AnymailRequestsBackend._send` (base.py lines 219-226): raise
`RuntimeError` if `self.session is None`, otherwise delegate to the base
`_send`. The `RuntimeError` leaves the message state untouched (it is raised
before the base method runs). -/
def requests_send (class_name : String) (session : Option Session)
    (esp : EspBehavior) (m : SendMessage) (st : MsgState) :
    Except Err Bool × MsgState × List Stage :=
  match session with
  | none => (.error (.runtime (noSessionMsg class_name)), st, [])
  | some _ => base_send esp m st

/-- The one error `requests` raises that `open`/`close` catch:
`requests.RequestException`. -/
inductive ReqError
  | requestException
deriving DecidableEq

/-- `AnymailRequestsBackend.open` (base.py lines 194-206), abstracted over
the outcome of the `requests.Session()` constructor (`create`). If a session
already exists, return `False` and change nothing. Otherwise, a constructor
error is re-raised unless `fail_silently` (then `open` falls off the end,
returning Python's `None`, modelled as `Option.none`). On success, the
library identifier `"Anymail/<version> "` is joined with the session's
existing `User-Agent` header (missing treated as `""`), the session is
stored, and `True` is returned. Result: (returned value, new `self.session`). -/
def req_open (version : String) (fail_silently : Bool)
    (session : Option Session) (create : Except ReqError Session) :
    Except ReqError (Option Bool × Option Session) :=
  if session.isSome then .ok (some false, session)
  else
    match create with
    | .error e => if !fail_silently then .error e else .ok (none, session)
    | .ok s =>
      let ua := "Anymail/" ++ version ++ " " ++ ((s.headers "User-Agent").getD "")
      let s2 : Session := ⟨fun k => if k = "User-Agent" then some ua else s.headers k⟩
      .ok (some true, some s2)

/-- The backend configuration `BasePayload.unsupported_feature` consults:
the `unsupported_feature_errors` flag (read once at backend construction
from `ANYMAIL_UNSUPPORTED_FEATURE_ERRORS`, default true) and the backend's
`esp_name`. -/
structure Backend where
  unsupported_feature_errors : Bool
  esp_name : String
deriving DecidableEq

/-- `BasePayload.unsupported_feature` (base.py lines 308-311): when the
backend's `unsupported_feature_errors` flag is set, raise
`AnymailUnsupportedFeature("<esp_name> does not support <feature>")`;
otherwise do nothing (return normally). -/
def unsupported_feature (backend : Backend) (feature : String) :
    Except Err Unit :=
  if backend.unsupported_feature_errors then
    .error (.anymail (.unsupportedFeature
      (backend.esp_name ++ " does not support " ++ feature)))
  else .ok ()

/-- Combine strategy named in the merge table: the `last` or `combine`
function from `anymail.utils`. -/
inductive Combiner
  | lastC
  | combineC
deriving DecidableEq

/-- Modelled from the spec: the `last` combiner from `anymail.utils` (the
module is not part of the sources under verification). Spec: "takeLast:
effective value = caller value if present, else default value, else
absent." Values are `Option`s with `none` as the `UNSET` sentinel. -/
def last (defaultVal callerVal : Option (List String)) : Option (List String) :=
  match callerVal with
  | some v => some v
  | none => defaultVal

/-- Modelled from the spec: the `combine` combiner from `anymail.utils` (the
module is not part of the sources under verification). Spec: "combine:
effective value = concatenation of default collection then caller collection
(both treated as sequences; absent treated as empty); if both absent, value
is absent." -/
def combine (defaultVal callerVal : Option (List String)) : Option (List String) :=
  match defaultVal, callerVal with
  | none, none => none
  | some d, none => some d
  | none, some c => some c
  | some d, some c => some (d ++ c)

/-- Dispatch a `Combiner` name to its function. -/
def applyCombiner : Combiner → Option (List String) → Option (List String) →
    Option (List String)
  | .lastC => last
  | .combineC => combine

/-- One row `(attr, combiner, converter)` of the declarative attribute
tables on `BasePayload`. `combiner` is `none` when the row's combiner slot
is Python `None` (defaults are then not consulted); `converter` names a
converter method or is `none` for pass-through. -/
structure MergeEntry where
  attr : String
  combiner : Option Combiner
  converter : Option String
deriving DecidableEq

/-- `BasePayload.base_message_attrs` (base.py lines 257-269). -/
def base_message_attrs : List MergeEntry :=
  [⟨"from_email", some .lastC, some "parsed_email"⟩,
   ⟨"to", some .combineC, some "parsed_emails"⟩,
   ⟨"cc", some .combineC, some "parsed_emails"⟩,
   ⟨"bcc", some .combineC, some "parsed_emails"⟩,
   ⟨"subject", some .lastC, none⟩,
   ⟨"reply_to", some .combineC, some "parsed_emails"⟩,
   ⟨"extra_headers", some .combineC, none⟩,
   ⟨"body", some .lastC, none⟩,
   ⟨"alternatives", some .combineC, none⟩,
   ⟨"attachments", some .combineC, some "prepped_attachments"⟩]

/-- `BasePayload.anymail_message_attrs` (base.py lines 270-278). -/
def anymail_message_attrs : List MergeEntry :=
  [⟨"metadata", some .combineC, none⟩,
   ⟨"send_at", some .lastC, none⟩,
   ⟨"tags", some .combineC, none⟩,
   ⟨"track_clicks", some .lastC, none⟩,
   ⟨"track_opens", some .lastC, none⟩,
   ⟨"esp_extra", some .combineC, none⟩]

/-- The concatenated table `base_message_attrs + anymail_message_attrs +
esp_message_attrs` iterated by `BasePayload.__init__` (base.py line 290);
`esp_message_attrs` is `()` on the base class and supplied by subclasses. -/
def message_attrs (esp_message_attrs : List MergeEntry) : List MergeEntry :=
  base_message_attrs ++ anymail_message_attrs ++ esp_message_attrs

/-- A message as `BasePayload.__init__` reads it: `getattr(message, attr,
UNSET)` modelled as a partial attribute map (with `none` for `UNSET`, i.e.
the attribute is missing), plus `message.content_subtype`, which selects the
body setter. Field values are modelled uniformly as string lists. -/
structure PyMessage where
  attrs : String → Option (List String)
  content_subtype : String

/-- One setter-hook invocation recorded during `BasePayload.__init__`. Each
known `set_<attr>` method is its own constructor; `setOther` stands for the
`getattr(self, 'set_%s' % attr)` lookup on an attr outside the base tables
(an ESP-specific `esp_message_attrs` row). -/
inductive SetterCall
  | set_from_email (v : List String)
  | set_to (v : List String)
  | set_cc (v : List String)
  | set_bcc (v : List String)
  | set_subject (v : List String)
  | set_reply_to (v : List String)
  | set_extra_headers (v : List String)
  | set_text_body (v : List String)
  | set_html_body (v : List String)
  | set_alternatives (v : List String)
  | set_attachments (v : List String)
  | set_metadata (v : List String)
  | set_send_at (v : List String)
  | set_tags (v : List String)
  | set_track_clicks (v : List String)
  | set_track_opens (v : List String)
  | set_esp_extra (v : List String)
  | setOther (name : String) (v : List String)
deriving DecidableEq

/-- Setter selection of `BasePayload.__init__` (base.py lines 301-305): the
`body` attr goes to `set_html_body` when `message.content_subtype == 'html'`
and to `set_text_body` otherwise; every other attr goes to its `set_<attr>`
method. -/
def mkCall (m : PyMessage) (attr : String) (v : List String) : SetterCall :=
  if attr = "body" then
    if m.content_subtype = "html" then .set_html_body v else .set_text_body v
  else if attr = "from_email" then .set_from_email v
  else if attr = "to" then .set_to v
  else if attr = "cc" then .set_cc v
  else if attr = "bcc" then .set_bcc v
  else if attr = "subject" then .set_subject v
  else if attr = "reply_to" then .set_reply_to v
  else if attr = "extra_headers" then .set_extra_headers v
  else if attr = "alternatives" then .set_alternatives v
  else if attr = "attachments" then .set_attachments v
  else if attr = "metadata" then .set_metadata v
  else if attr = "send_at" then .set_send_at v
  else if attr = "tags" then .set_tags v
  else if attr = "track_clicks" then .set_track_clicks v
  else if attr = "track_opens" then .set_track_opens v
  else if attr = "esp_extra" then .set_esp_extra v
  else .setOther attr v

/-- The attr a recorded setter call was dispatched for (both body setters
belong to the `body` row). -/
def SetterCall.callAttr : SetterCall → String
  | .set_from_email _ => "from_email"
  | .set_to _ => "to"
  | .set_cc _ => "cc"
  | .set_bcc _ => "bcc"
  | .set_subject _ => "subject"
  | .set_reply_to _ => "reply_to"
  | .set_extra_headers _ => "extra_headers"
  | .set_text_body _ => "body"
  | .set_html_body _ => "body"
  | .set_alternatives _ => "alternatives"
  | .set_attachments _ => "attachments"
  | .set_metadata _ => "metadata"
  | .set_send_at _ => "send_at"
  | .set_tags _ => "tags"
  | .set_track_clicks _ => "track_clicks"
  | .set_track_opens _ => "track_opens"
  | .set_esp_extra _ => "esp_extra"
  | .setOther n _ => n

/-- Body of the `for attr, combiner, converter in message_attrs` loop of
`BasePayload.__init__` (base.py lines 291-306) for one table row: read the
attr (`UNSET` when missing), first half: `value = getattr(message, attr,
UNSET)` followed by `value = combiner(default_value, value)` when the row
has a combiner (base.py lines 292-295). -/
def merged_value (m : PyMessage) (defaults : String → Option (List String))
    (e : MergeEntry) : Option (List String) :=
  match e.combiner with
  | none => m.attrs e.attr
  | some c => applyCombiner c (defaults e.attr) (m.attrs e.attr)

/-- Converter application (base.py lines 297-300): `none` passes the value
through unchanged, a named converter is resolved on the payload (modelled by
the environment `conv`) and applied. -/
def converted (conv : String → List String → List String) (e : MergeEntry)
    (v : List String) : List String :=
  match e.converter with
  | none => v
  | some cname => conv cname v

/-- Remainder of the loop body: skip the row entirely when the merged value
is `UNSET`, otherwise convert and make the single setter call. -/
def dispatch_attr (m : PyMessage) (defaults : String → Option (List String))
    (conv : String → List String → List String) (e : MergeEntry) :
    Option SetterCall :=
  match merged_value m defaults e with
  | none => none
  | some v => some (mkCall m e.attr (converted conv e v))

/-- The full merge-and-dispatch pass of `BasePayload.__init__`: the ordered
list of setter calls made for one message (each row yields at most one). -/
def payload_init (m : PyMessage) (defaults : String → Option (List String))
    (conv : String → List String → List String)
    (esp_message_attrs : List MergeEntry) : List SetterCall :=
  (message_attrs esp_message_attrs).filterMap (dispatch_attr m defaults conv)

/-! ## Helper lemmas -/

/-- Every event the inner send loop records is a `processMsg`: the loop
itself never calls `open` or `close`. -/
theorem sendLoop_events (fs : Bool) (l : List (Except Err Bool)) :
    ∀ i n, ∀ ev ∈ (sendLoop fs l i n).2, ∃ j, ev = Event.processMsg j := by
  induction l with
  | nil => intro i n ev hev; simp [sendLoop] at hev
  | cons r rs ih =>
    intro i n ev hev
    cases r with
    | ok sent =>
      simp only [sendLoop, List.mem_cons] at hev
      rcases hev with h | h
      · exact ⟨i, h⟩
      · exact ih (i + 1) (if sent then n + 1 else n) ev h
    | error e =>
      cases fs with
      | true =>
        cases ha : e.isAnymailError with
        | true =>
          simp [sendLoop, ha] at hev
          rcases hev with h | h
          · exact ⟨i, h⟩
          · exact ih (i + 1) n ev h
        | false =>
          simp [sendLoop, ha] at hev
          exact ⟨i, hev⟩
      | false =>
        by_cases ha : e.isAnymailError = true <;> simp [sendLoop, ha] at hev <;>
          exact ⟨i, hev⟩


/-- Inversion for `dispatch_attr`: a produced call comes from `mkCall` on
the row's own attr. -/
theorem dispatch_attr_eq_some (m : PyMessage)
    (defaults : String → Option (List String))
    (conv : String → List String → List String) (e : MergeEntry)
    (c : SetterCall) (h : dispatch_attr m defaults conv e = some c) :
    ∃ v, c = mkCall m e.attr v := by
  unfold dispatch_attr at h
  rcases hv : merged_value m defaults e with _ | v <;> rw [hv] at h
  · exact absurd h (by simp)
  · exact ⟨converted conv e v, by injection h with h; exact h.symm⟩

/-- A row whose attr is neither set on the message nor present in the
defaults merges to `UNSET`, so the row dispatches nothing. -/
theorem dispatch_attr_absent (m : PyMessage)
    (defaults : String → Option (List String))
    (conv : String → List String → List String) (e : MergeEntry)
    (hattr : m.attrs e.attr = none) (hdef : defaults e.attr = none) :
    dispatch_attr m defaults conv e = none := by
  have hm : merged_value m defaults e = none := by
    unfold merged_value
    rcases hc : e.combiner with _ | c
    · exact hattr
    · cases c <;> simp [applyCombiner, last, combine, hattr, hdef]
  unfold dispatch_attr
  rw [hm]

set_option maxHeartbeats 2000000 in
/-- Rows of the base attribute tables are identified by their attr. -/
theorem message_attrs_attr_inj :
    ∀ e1 ∈ message_attrs [], ∀ e2 ∈ message_attrs [],
      e1.attr = e2.attr → e1 = e2 := by decide

/-- Computation rules for `mkCall` at each concrete attr of the base
tables. -/
theorem mkCall_body_html (m : PyMessage) (v : List String)
    (h : m.content_subtype = "html") :
    mkCall m "body" v = .set_html_body v := by
  unfold mkCall; rw [if_pos rfl, if_pos h]

theorem mkCall_body_text (m : PyMessage) (v : List String)
    (h : ¬m.content_subtype = "html") :
    mkCall m "body" v = .set_text_body v := by
  unfold mkCall; rw [if_pos rfl, if_neg h]

theorem mkCall_body_cases (m : PyMessage) (v : List String) :
    mkCall m "body" v = .set_html_body v ∨ mkCall m "body" v = .set_text_body v := by
  by_cases h : m.content_subtype = "html"
  · exact .inl (mkCall_body_html m v h)
  · exact .inr (mkCall_body_text m v h)

theorem mkCall_from_email (m : PyMessage) (v : List String) :
    mkCall m "from_email" v = .set_from_email v := rfl

theorem mkCall_to (m : PyMessage) (v : List String) :
    mkCall m "to" v = .set_to v := rfl

theorem mkCall_cc (m : PyMessage) (v : List String) :
    mkCall m "cc" v = .set_cc v := rfl

theorem mkCall_bcc (m : PyMessage) (v : List String) :
    mkCall m "bcc" v = .set_bcc v := rfl

theorem mkCall_subject (m : PyMessage) (v : List String) :
    mkCall m "subject" v = .set_subject v := rfl

theorem mkCall_reply_to (m : PyMessage) (v : List String) :
    mkCall m "reply_to" v = .set_reply_to v := rfl

theorem mkCall_extra_headers (m : PyMessage) (v : List String) :
    mkCall m "extra_headers" v = .set_extra_headers v := rfl

theorem mkCall_alternatives (m : PyMessage) (v : List String) :
    mkCall m "alternatives" v = .set_alternatives v := rfl

theorem mkCall_attachments (m : PyMessage) (v : List String) :
    mkCall m "attachments" v = .set_attachments v := rfl

theorem mkCall_metadata (m : PyMessage) (v : List String) :
    mkCall m "metadata" v = .set_metadata v := rfl

theorem mkCall_send_at (m : PyMessage) (v : List String) :
    mkCall m "send_at" v = .set_send_at v := rfl

theorem mkCall_tags (m : PyMessage) (v : List String) :
    mkCall m "tags" v = .set_tags v := rfl

theorem mkCall_track_clicks (m : PyMessage) (v : List String) :
    mkCall m "track_clicks" v = .set_track_clicks v := rfl

theorem mkCall_track_opens (m : PyMessage) (v : List String) :
    mkCall m "track_opens" v = .set_track_opens v := rfl

theorem mkCall_esp_extra (m : PyMessage) (v : List String) :
    mkCall m "esp_extra" v = .set_esp_extra v := rfl

set_option maxHeartbeats 2000000 in
/-- A setter call dispatched for a row of the base tables carries that
row's attr. -/
theorem callAttr_dispatch (m : PyMessage)
    (defaults : String → Option (List String))
    (conv : String → List String → List String) :
    ∀ e ∈ message_attrs [], ∀ c, dispatch_attr m defaults conv e = some c →
      c.callAttr = e.attr := by
  intro e he c h
  obtain ⟨v, rfl⟩ := dispatch_attr_eq_some m defaults conv e c h
  fin_cases he <;>
    simp only [mkCall_from_email, mkCall_to, mkCall_cc, mkCall_bcc, mkCall_subject,
      mkCall_reply_to, mkCall_extra_headers, mkCall_alternatives, mkCall_attachments,
      mkCall_metadata, mkCall_send_at, mkCall_tags, mkCall_track_clicks,
      mkCall_track_opens, mkCall_esp_extra] <;>
    first
      | rfl
      | (rcases mkCall_body_cases m v with hb | hb <;> rw [hb] <;> rfl)

set_option maxHeartbeats 2000000 in
/-- No row of the base attribute tables dispatches to the reflective
`setOther` fallback. -/
theorem mkCall_ne_setOther (m : PyMessage) :
    ∀ e ∈ message_attrs [], ∀ v n w, mkCall m e.attr v ≠ .setOther n w := by
  intro e he v n w
  fin_cases he <;>
    simp only [mkCall_from_email, mkCall_to, mkCall_cc, mkCall_bcc, mkCall_subject,
      mkCall_reply_to, mkCall_extra_headers, mkCall_alternatives, mkCall_attachments,
      mkCall_metadata, mkCall_send_at, mkCall_tags, mkCall_track_clicks,
      mkCall_track_opens, mkCall_esp_extra] <;>
    first
      | (intro h; cases h)
      | (rcases mkCall_body_cases m v with hb | hb <;> rw [hb] <;> intro h <;> cases h)

/-! ## Claim theorems -/

/-- C9: for the empty message list, `send_messages` returns 0 immediately
with an empty call trace — `open` is never called, no message is processed,
no payload is built and no I/O occurs, whatever the configuration and
whatever `open` would have done. -/
theorem send_messages_empty (fail_silently : Bool)
    (openOutcome : Except Err Bool) :
    send_messages fail_silently openOutcome [] = (.ok 0, []) := rfl

/-- C10: `post_to_esp` returns the response without error exactly when the
HTTP status code equals 200; every other status code — including nominally
successful ones such as 201 or 202 — raises `AnymailRequestsAPIError`
carrying the request payload and the response. -/
theorem post_to_esp_ok_iff_200 (http : Payload → Response) (p : Payload) :
    ((∃ r, post_to_esp http p = .ok r) ↔ (http p).status_code = 200) ∧
    ((http p).status_code ≠ 200 →
      post_to_esp http p = .error (.anymail (.requestsAPIError p (http p)))) := by
  constructor
  · constructor
    · rintro ⟨r, hr⟩
      by_contra hne
      simp [post_to_esp, hne] at hr
    · intro h
      exact ⟨http p, by simp [post_to_esp, h]⟩
  · intro h
    simp [post_to_esp, h]

/-- Witness for C10: a 201 Created response is rejected. -/
theorem post_to_esp_ok_iff_200_witness :
    (201 : Nat) ≠ 200 ∧
    post_to_esp (fun _ => ⟨201, "created"⟩) ⟨"req"⟩ =
      .error (.anymail (.requestsAPIError ⟨"req"⟩ ⟨201, "created"⟩)) :=
  ⟨by decide, (post_to_esp_ok_iff_200 (fun _ => ⟨201, "created"⟩) ⟨"req"⟩).2 (by decide)⟩

/-- C4: `unsupported_feature` raises `AnymailUnsupportedFeature` — a member
of the catchable `AnymailError` family whose message names both the ESP and
the feature — when the backend's `unsupported_feature_errors` flag is true,
and returns normally (does nothing) when the flag is false. -/
theorem unsupported_feature_policy (backend : Backend) (feature : String) :
    (backend.unsupported_feature_errors = true →
      unsupported_feature backend feature =
        .error (.anymail (.unsupportedFeature
          (backend.esp_name ++ " does not support " ++ feature))) ∧
      (Err.anymail (.unsupportedFeature
          (backend.esp_name ++ " does not support " ++ feature))).isAnymailError
        = true) ∧
    (backend.unsupported_feature_errors = false →
      unsupported_feature backend feature = .ok ()) := by
  constructor
  · intro h
    exact ⟨by simp [unsupported_feature, h], rfl⟩
  · intro h
    simp [unsupported_feature, h]

/-- Witness for C4: with the flag set, a concrete backend raises the
feature-and-provider error message; with it clear, nothing happens. -/
theorem unsupported_feature_policy_witness :
    unsupported_feature ⟨true, "Mailgun"⟩ "metadata" =
      .error (.anymail (.unsupportedFeature "Mailgun does not support metadata")) ∧
    unsupported_feature ⟨false, "Mailgun"⟩ "metadata" = .ok () :=
  ⟨((unsupported_feature_policy ⟨true, "Mailgun"⟩ "metadata").1 rfl).1.trans (by rfl),
   (unsupported_feature_policy ⟨false, "Mailgun"⟩ "metadata").2 rfl⟩

/-- C5: `_send` on a message whose resolved recipient set (to + cc + bcc)
is empty returns `False` with the message left in the freshly-reset state
(`anymail_status = None`, no ESP response) and an empty stage trace: no
payload is built, no HTTP request is made, no error is raised, no status is
attached. A `False` return contributes 0 to `send_messages`' count: the
loop continues with `num_sent` unchanged. -/
theorem skip_empty_recipients (esp : EspBehavior) (m : SendMessage)
    (st : MsgState) (h : m.recipients.isEmpty = true) :
    base_send esp m st = (.ok false, initialState, []) ∧
    (∀ fs rs i n, sendLoop fs (.ok false :: rs) i n =
      ((sendLoop fs rs (i + 1) n).1,
        .processMsg i :: (sendLoop fs rs (i + 1) n).2)) := by
  constructor
  · simp [base_send, h]
  · intro fs rs i n
    simp [sendLoop]

/-- Witness for C5: a concrete message with no recipients is skipped. -/
theorem skip_empty_recipients_witness :
    (SendMessage.mk [] [] []).recipients.isEmpty = true ∧
    base_send
      ⟨fun _ => .ok ⟨"req"⟩, fun _ => ⟨200, "ok"⟩, fun r => .ok r.body,
        fun _ _ _ => .ok .sent⟩
      ⟨[], [], []⟩ ⟨some .sent, some "old"⟩ = (.ok false, initialState, []) :=
  ⟨rfl,
   (skip_empty_recipients
      ⟨fun _ => .ok ⟨"req"⟩, fun _ => ⟨200, "ok"⟩, fun r => .ok r.body,
        fun _ _ _ => .ok .sent⟩
      ⟨[], [], []⟩ ⟨some .sent, some "old"⟩ rfl).1⟩

/-- C3: when the HTTP transmission returns a non-success status code,
`_send` stops at `post_to_esp` with an `AnymailRequestsAPIError` carrying
the request payload and the response, and neither `deserialize_response`
nor `validate_response` is ever invoked for that message. -/
theorem post_error_before_validation (esp : EspBehavior) (m : SendMessage)
    (st : MsgState) (payload : Payload)
    (hrec : m.recipients.isEmpty = false)
    (hbuild : esp.build m = .ok payload)
    (hstatus : (esp.http payload).status_code ≠ 200) :
    base_send esp m st =
      (.error (.anymail (.requestsAPIError payload (esp.http payload))),
        initialState, [.buildPayload, .postToEsp]) ∧
    Stage.deserializeResp ∉ (base_send esp m st).2.2 ∧
    Stage.validateResp ∉ (base_send esp m st).2.2 := by
  have h1 : base_send esp m st =
      (.error (.anymail (.requestsAPIError payload (esp.http payload))),
        initialState, [.buildPayload, .postToEsp]) := by
    simp [base_send, hrec, hbuild, post_to_esp, hstatus]
  refine ⟨h1, ?_, ?_⟩ <;> rw [h1] <;> simp

/-- Witness for C3: a concrete 500 response aborts the pipeline after the
post stage. -/
theorem post_error_before_validation_witness :
    (SendMessage.mk ["a@x.com"] [] []).recipients.isEmpty = false ∧
    base_send
      ⟨fun _ => .ok ⟨"req"⟩, fun _ => ⟨500, "boom"⟩, fun r => .ok r.body,
        fun _ _ _ => .ok .sent⟩
      ⟨["a@x.com"], [], []⟩ initialState =
      (.error (.anymail (.requestsAPIError ⟨"req"⟩ ⟨500, "boom"⟩)),
        initialState, [.buildPayload, .postToEsp]) :=
  ⟨rfl,
   (post_error_before_validation
      ⟨fun _ => .ok ⟨"req"⟩, fun _ => ⟨500, "boom"⟩, fun r => .ok r.body,
        fun _ _ _ => .ok .sent⟩
      ⟨["a@x.com"], [], []⟩ initialState ⟨"req"⟩ rfl rfl (by decide)).1⟩

/-- C8: the requests backend's `open` is idempotent. With an existing
session it returns `False` and changes nothing; with none, it creates a
session, writes the library identifier joined with the session's previous
client identifier (`User-Agent`) into that header (leaving every other
header untouched), stores the session, and returns `True`. -/
theorem req_open_idempotent (version : String) (fail_silently : Bool)
    (create : Except ReqError Session) :
    (∀ s, req_open version fail_silently (some s) create =
      .ok (some false, some s)) ∧
    (∀ s, create = .ok s →
      ∃ s2, req_open version fail_silently none create =
          .ok (some true, some s2) ∧
        s2.headers "User-Agent" =
          some ("Anymail/" ++ version ++ " " ++ ((s.headers "User-Agent").getD "")) ∧
        ∀ k, k ≠ "User-Agent" → s2.headers k = s.headers k) := by
  constructor
  · intro s
    simp [req_open]
  · intro s hc
    subst hc
    refine ⟨⟨fun k => if k = "User-Agent"
        then some ("Anymail/" ++ version ++ " " ++ ((s.headers "User-Agent").getD ""))
        else s.headers k⟩, ?_, ?_, ?_⟩
    · simp [req_open]
    · simp
    · intro k hk
      simp [hk]

/-- Witness for C8: opening with no prior session and a fresh headerless
session stores it with the Anymail User-Agent tag and returns `True`. -/
theorem req_open_idempotent_witness :
    (Except.ok (⟨fun _ => none⟩ : Session) : Except ReqError Session) =
      .ok ⟨fun _ => none⟩ ∧
    ∃ s2, req_open "1.0" false none (.ok ⟨fun _ => none⟩) =
        .ok (some true, some s2) ∧
      s2.headers "User-Agent" = some ("Anymail/" ++ "1.0" ++ " " ++ "") ∧
      ∀ k, k ≠ "User-Agent" → s2.headers k = none :=
  ⟨rfl, (req_open_idempotent "1.0" false (.ok ⟨fun _ => none⟩)).2 ⟨fun _ => none⟩ rfl⟩

/-- C2: for every non-empty message list (and an `open` that returned
normally), the trace of `send_messages` starts with the single `open` call
— so `open` runs exactly once, before any message is processed — and
contains exactly one `close` call if `open` returned `True` and none if it
returned a falsy value, on every exit path (the trace shape is the same
whether the loop's outcome is a count or a propagating error). -/
theorem send_messages_open_close (fs created : Bool)
    (msends : List (Except Err Bool)) (h : msends ≠ []) :
    (send_messages fs (.ok created) msends).2.head? = some .openCall ∧
    (send_messages fs (.ok created) msends).2.count .openCall = 1 ∧
    (send_messages fs (.ok created) msends).2.count .closeCall =
      (if created then 1 else 0) := by
  obtain ⟨r, rs, rfl⟩ : ∃ r rs, msends = r :: rs := by
    cases msends with
    | nil => exact absurd rfl h
    | cons r rs => exact ⟨r, rs, rfl⟩
  have hopen : Event.openCall ∉ (sendLoop fs (r :: rs) 0 0).2 := by
    intro hm
    obtain ⟨j, hj⟩ := sendLoop_events fs (r :: rs) 0 0 _ hm
    cases hj
  have hclose : Event.closeCall ∉ (sendLoop fs (r :: rs) 0 0).2 := by
    intro hm
    obtain ⟨j, hj⟩ := sendLoop_events fs (r :: rs) 0 0 _ hm
    cases hj
  have hexp : (send_messages fs (.ok created) (r :: rs)).2 =
      .openCall :: ((sendLoop fs (r :: rs) 0 0).2 ++
        if created then [.closeCall] else []) := by
    simp [send_messages]
  refine ⟨by rw [hexp]; rfl, ?_, ?_⟩ <;>
    cases created <;>
      simp [hexp, List.count_cons, List.count_append,
        List.count_eq_zero.mpr hopen, List.count_eq_zero.mpr hclose]

/-- Witness for C2: a one-message batch with a created session opens once,
processes the message, and closes once. -/
theorem send_messages_open_close_witness :
    ([Except.ok true] : List (Except Err Bool)) ≠ [] ∧
    ((send_messages false (.ok true) [.ok true]).2.head? = some .openCall ∧
     (send_messages false (.ok true) [.ok true]).2.count .openCall = 1 ∧
     (send_messages false (.ok true) [.ok true]).2.count .closeCall =
       (if true then 1 else 0)) :=
  ⟨List.cons_ne_nil _ _, send_messages_open_close false true [.ok true] (List.cons_ne_nil _ _)⟩

/-- C1: error policy of the send loop. A per-message error in the
`AnymailError` family with `fail_silently` set makes that one message count
as not sent (`num_sent` is unchanged) and iteration continues; an error
outside the family — such as the `RuntimeError` raised by the requests
backend's `_send` when no session is open — or any error with
`fail_silently` clear propagates immediately, aborting the remaining
messages and escaping `send_messages` itself. -/
theorem send_loop_error_policy (fs : Bool) (e : Err)
    (rs : List (Except Err Bool)) (i n : Nat) :
    (e.isAnymailError = true → fs = true →
      sendLoop fs (.error e :: rs) i n =
        ((sendLoop fs rs (i + 1) n).1,
          .processMsg i :: (sendLoop fs rs (i + 1) n).2)) ∧
    (e.isAnymailError = false ∨ fs = false →
      sendLoop fs (.error e :: rs) i n = (.error e, [.processMsg i])) ∧
    (∀ s, (Err.runtime s).isAnymailError = false) ∧
    (∀ class_name (esp : EspBehavior) m st,
      requests_send class_name none esp m st =
        (.error (.runtime (noSessionMsg class_name)), st, []) ∧
      (Err.runtime (noSessionMsg class_name)).isAnymailError = false) ∧
    (∀ (created : Bool) (ms : List (Except Err Bool)), ms ≠ [] →
      (sendLoop fs ms 0 0).1 = .error e →
      (send_messages fs (.ok created) ms).1 = .error e) := by
  refine ⟨?_, ?_, ?_, ?_, ?_⟩
  · intro ha hf
    subst hf
    simp [sendLoop, ha]
  · intro hor
    rcases hor with ha | hf
    · simp [sendLoop, ha]
    · subst hf
      by_cases ha : e.isAnymailError = true <;> simp [sendLoop, ha]
  · intro s
    rfl
  · intro cn esp m st
    exact ⟨rfl, rfl⟩
  · intro created ms hms hloop
    cases ms with
    | nil => exact absurd rfl hms
    | cons r rs2 => simpa [send_messages] using hloop

/-- Witness for C1: a silenced `AnymailError` lets the loop continue with
the count unchanged; the same error without `fail_silently` aborts. -/
theorem send_loop_error_policy_witness :
    (Err.anymail .recipientsRefused).isAnymailError = true ∧
    sendLoop true [.error (.anymail .recipientsRefused), .ok true] 0 0 =
      ((sendLoop true [.ok true] 1 0).1,
        .processMsg 0 :: (sendLoop true [.ok true] 1 0).2) ∧
    sendLoop false [.error (.anymail .recipientsRefused)] 0 0 =
      (.error (.anymail .recipientsRefused), [.processMsg 0]) :=
  ⟨rfl,
   (send_loop_error_policy true (.anymail .recipientsRefused) [.ok true] 0 0).1 rfl rfl,
   (send_loop_error_policy false (.anymail .recipientsRefused) [] 0 0).2.1 (.inr rfl)⟩

/-- C6: a field of the merge table whose attr the caller did not set and
for which no default exists merges to `UNSET`, so its setter hook is never
invoked during payload construction — the count of setter calls dispatched
for that attr (including, for `body`, both body setters) is 0. -/
theorem absent_field_setter_skipped (m : PyMessage)
    (defaults : String → Option (List String))
    (conv : String → List String → List String) (e : MergeEntry)
    (hmem : e ∈ message_attrs []) (hattr : m.attrs e.attr = none)
    (hdef : defaults e.attr = none) :
    (payload_init m defaults conv []).countP
      (fun c => c.callAttr == e.attr) = 0 := by
  rw [List.countP_eq_zero]
  intro c hc
  simp only [payload_init] at hc
  rw [List.mem_filterMap] at hc
  obtain ⟨e2, hmem2, hd2⟩ := hc
  have hca : c.callAttr = e2.attr := callAttr_dispatch m defaults conv e2 hmem2 c hd2
  simp only [beq_iff_eq]
  intro hEq
  have he2 : e2 = e := message_attrs_attr_inj e2 hmem2 e hmem (hca.symm.trans hEq)
  subst he2
  rw [dispatch_attr_absent m defaults conv e2 hattr hdef] at hd2
  cases hd2

set_option maxHeartbeats 2000000 in
/-- Witness for C6: a message that sets nothing, with no defaults, makes no
setter call for the `tags` row. -/
theorem absent_field_setter_skipped_witness :
    (⟨"tags", some .combineC, none⟩ : MergeEntry) ∈ message_attrs [] ∧
    (payload_init ⟨fun _ => none, "plain"⟩ (fun _ => none) (fun _ v => v)
      []).countP (fun c => c.callAttr == "tags") = 0 :=
  ⟨by decide,
   absent_field_setter_skipped ⟨fun _ => none, "plain"⟩ (fun _ => none)
     (fun _ v => v) ⟨"tags", some .combineC, none⟩ (by decide) rfl rfl⟩

set_option maxHeartbeats 2000000 in
/-- C7: when the merged body value is present, it is dispatched to
`set_html_body` when the message's `content_subtype` is `"html"` and to
`set_text_body` otherwise (the other body setter is not called at all), and
no field of the base tables — `body` included — is ever dispatched through
the reflective generic-setter fallback. -/
theorem body_dispatch_by_subtype (m : PyMessage)
    (defaults : String → Option (List String))
    (conv : String → List String → List String) (b : List String)
    (hbody : last (defaults "body") (m.attrs "body") = some b) :
    (m.content_subtype = "html" →
      SetterCall.set_html_body b ∈ payload_init m defaults conv [] ∧
      ∀ v, SetterCall.set_text_body v ∉ payload_init m defaults conv []) ∧
    (¬m.content_subtype = "html" →
      SetterCall.set_text_body b ∈ payload_init m defaults conv [] ∧
      ∀ v, SetterCall.set_html_body v ∉ payload_init m defaults conv []) ∧
    (∀ nm v, SetterCall.setOther nm v ∉ payload_init m defaults conv []) := by
  have hmemB : (⟨"body", some .lastC, none⟩ : MergeEntry) ∈ message_attrs [] := by
    decide
  have hdispB : dispatch_attr m defaults conv ⟨"body", some .lastC, none⟩ =
      some (mkCall m "body" b) := by
    unfold dispatch_attr
    have hm : merged_value m defaults ⟨"body", some .lastC, none⟩ = some b := by
      unfold merged_value
      simpa [applyCombiner] using hbody
    rw [hm]
    exact rfl
  have hmemCall : mkCall m "body" b ∈ payload_init m defaults conv [] := by
    simp only [payload_init]
    exact List.mem_filterMap.mpr ⟨_, hmemB, hdispB⟩
  have hsrc : ∀ c ∈ payload_init m defaults conv [],
      ∃ e2 ∈ message_attrs [], dispatch_attr m defaults conv e2 = some c := by
    intro c hc
    simp only [payload_init] at hc
    exact List.mem_filterMap.mp hc
  have hbodyRow : ∀ c ∈ payload_init m defaults conv [], c.callAttr = "body" →
      c = mkCall m "body" b := by
    intro c hc hcb
    obtain ⟨e2, hm2, hd2⟩ := hsrc c hc
    have hca : c.callAttr = e2.attr := callAttr_dispatch m defaults conv e2 hm2 c hd2
    have he2 : e2 = ⟨"body", some .lastC, none⟩ :=
      message_attrs_attr_inj e2 hm2 _ hmemB (hca.symm.trans hcb)
    subst he2
    rw [hdispB] at hd2
    injection hd2 with hd2
    exact hd2.symm
  refine ⟨?_, ?_, ?_⟩
  · intro hsub
    rw [mkCall_body_html m b hsub] at hmemCall hbodyRow
    refine ⟨hmemCall, ?_⟩
    intro v hv
    have := hbodyRow _ hv rfl
    cases this
  · intro hsub
    rw [mkCall_body_text m b hsub] at hmemCall hbodyRow
    refine ⟨hmemCall, ?_⟩
    intro v hv
    have := hbodyRow _ hv rfl
    cases this
  · intro nm v hv
    obtain ⟨e2, hm2, hd2⟩ := hsrc _ hv
    obtain ⟨v2, heq⟩ := dispatch_attr_eq_some m defaults conv e2 _ hd2
    exact mkCall_ne_setOther m e2 hm2 v2 nm v heq.symm

set_option maxHeartbeats 2000000 in
/-- Witness for C7: an html-subtype message's body goes to the HTML body
setter. -/
theorem body_dispatch_by_subtype_witness :
    last ((fun _ => none) "body")
      ((fun a => if a = "body" then some ["<p>hi</p>"] else none) "body") =
      some ["<p>hi</p>"] ∧
    SetterCall.set_html_body ["<p>hi</p>"] ∈
      payload_init ⟨fun a => if a = "body" then some ["<p>hi</p>"] else none, "html"⟩
        (fun _ => none) (fun _ v => v) [] :=
  ⟨rfl,
   ((body_dispatch_by_subtype
      ⟨fun a => if a = "body" then some ["<p>hi</p>"] else none, "html"⟩
      (fun _ => none) (fun _ v => v) ["<p>hi</p>"] rfl).1 rfl).1⟩

end Anymail
